import Mathlib

/-!
Shallow embedding of the picflow-ui image pipeline core:
`src/utils/imageResizer.ts`, `src/utils/imageConverter.ts`, the compression
utility module, and the relevant pure fragments of the Vue components
(`getCompressionSettings`, `removeBgFromImage` filename derivation).

JavaScript numbers that the code actually manipulates here (dimensions,
qualities, ratios) are modelled as rationals; `Math.round` is Mathlib's
`round` (both are floor of x + 1/2). Optional JS values are `Option`, and
JS truthiness of a number-or-undefined (`a || b`) is made explicit.
-/

namespace PicFlow

/-- JS truthiness of an optional number: `undefined` and `0` are falsy. -/
def jsTruthy : Option ℚ → Bool
  | none => false
  | some x => decide (x ≠ 0)

/-- JS `a || b` where `a` is an optional number: yields `b` when `a` is
`undefined` or `0`, else the value of `a`. -/
def jsOr (a : Option ℚ) (b : ℚ) : ℚ :=
  match a with
  | none => b
  | some x => if x = 0 then b else x

/-- Output formats accepted by the converter/resizer (`'png' | 'jpg' | 'jpeg' | 'webp'`). -/
inductive ImgFormat where
  | png
  | jpg
  | jpeg
  | webp
deriving DecidableEq, Repr

/-- `ResizeOptions` from `imageResizer.ts`. -/
structure ResizeOptions where
  width : Option ℚ := none
  height : Option ℚ := none
  maintainAspectRatio : Option Bool := none
  quality : Option ℚ := none
  format : Option ImgFormat := none

/-- Target-dimension computation of `resizeImage` (`imageResizer.ts` lines
41-62): start from `options.width || originalWidth` and
`options.height || originalHeight`; when `maintainAspectRatio !== false`,
a single present dimension derives the other from the aspect ratio with
`Math.round`, and both present trigger the fit-within policy. -/
def resolveResize (originalWidth originalHeight : ℚ) (o : ResizeOptions) : ℚ × ℚ :=
  let targetWidth := jsOr o.width originalWidth
  let targetHeight := jsOr o.height originalHeight
  if o.maintainAspectRatio ≠ some false then
    let aspectRatio := originalWidth / originalHeight
    if jsTruthy o.width && !jsTruthy o.height then
      (targetWidth, ((round (o.width.getD 0 / aspectRatio) : ℤ) : ℚ))
    else if jsTruthy o.height && !jsTruthy o.width then
      (((round (o.height.getD 0 * aspectRatio) : ℤ) : ℚ), targetHeight)
    else if jsTruthy o.width && jsTruthy o.height then
      let widthRatio := o.width.getD 0 / originalWidth
      let heightRatio := o.height.getD 0 / originalHeight
      let ratio := min widthRatio heightRatio
      (((round (originalWidth * ratio) : ℤ) : ℚ), ((round (originalHeight * ratio) : ℤ) : ℚ))
    else
      (targetWidth, targetHeight)
  else
    (targetWidth, targetHeight)

/-- `ConversionOptions` from `imageConverter.ts`. -/
structure ConversionOptions where
  format : ImgFormat
  quality : Option ℚ := none
  width : Option ℚ := none
  height : Option ℚ := none
  maintainAspectRatio : Option Bool := none
  scale : Option ℚ := none

/-- Target-dimension computation of `convertRasterFormat`
(`imageConverter.ts` lines 115-126): start from
`options.width || img.width` and `options.height || img.height`; the
aspect-ratio branch runs only when `options.maintainAspectRatio` is truthy
and at least one of width/height is truthy, and it only handles the
single-dimension cases — when both are present the pair is left verbatim. -/
def resolveConvertRaster (imgWidth imgHeight : ℚ) (o : ConversionOptions) : ℚ × ℚ :=
  let width := jsOr o.width imgWidth
  let height := jsOr o.height imgHeight
  if (o.maintainAspectRatio = some true) ∧ (jsTruthy o.width || jsTruthy o.height) = true then
    let aspectRatio := imgWidth / imgHeight
    if jsTruthy o.width && !jsTruthy o.height then
      (width, ((round (o.width.getD 0 / aspectRatio) : ℤ) : ℚ))
    else if jsTruthy o.height && !jsTruthy o.width then
      (((round (o.height.getD 0 * aspectRatio) : ℤ) : ℚ), height)
    else
      (width, height)
  else
    (width, height)

/-- JS `String.prototype.toLowerCase`, on the string's character list
(the core `String.toLower` is not kernel-reducible, so the embedding maps
`Char.toLower` over `String.data` directly). -/
def strToLower (s : String) : String := String.mk (s.data.map Char.toLower)

/-- JS `String.prototype.endsWith`, on character lists. -/
def strEndsWith (s t : String) : Bool := t.data.isSuffixOf s.data

/-- JS `String.prototype.startsWith`, on character lists. -/
def strStartsWith (s t : String) : Bool := t.data.isPrefixOf s.data

/-- JS `===` on strings, on character lists. -/
def strEq (s t : String) : Bool := s.data == t.data

/-- The decode path `convertImage` (`imageConverter.ts` lines 309-336)
dispatches a file to. -/
inductive ConvertRoute where
  | pdfRoute
  | heicRoute
  | svgRoute
  | rasterRoute
deriving DecidableEq, Repr

/-- The dispatch logic of `convertImage` (`imageConverter.ts` lines
309-336): lower-case the declared media type and the filename, then test
PDF, HEIC/HEIF, SVG, generic raster in that order; no match throws
`Unsupported file type: ...` carrying `fileType || 'unknown'`. -/
def convertImageRoute (name declaredType : String) : Except String ConvertRoute :=
  let fileType := strToLower declaredType
  let fileName := strToLower name
  if strEndsWith fileName ".pdf" || strEq fileType "application/pdf" then
    .ok .pdfRoute
  else if strEndsWith fileName ".heic" || strEndsWith fileName ".heif" ||
      strEq fileType "image/heic" || strEq fileType "image/heif" then
    .ok .heicRoute
  else if strEq fileType "image/svg+xml" || strEndsWith fileName ".svg" then
    .ok .svgRoute
  else if strStartsWith fileType "image/" then
    .ok .rasterRoute
  else
    .error ("Unsupported file type: " ++ (if strEq fileType "" then "unknown" else fileType))

/-! ### Filename derivation -/

/-- Helper for the regex replacements on the trailing extension: walk the
reversed character list up to the first `'.'`; returns
`some (revExt, revBase)` where `revExt` is the (reversed) run of characters
after the last dot of the original string and `revBase` the (reversed)
characters before it, or `none` when the string has no dot. -/
def revSpanToDot : List Char → Option (List Char × List Char)
  | [] => none
  | c :: rest =>
    if c = '.' then some ([], rest)
    else (revSpanToDot rest).map (fun p => (c :: p.1, p.2))

/-- JS `s.replace(re, repl)` where `re` is the anchored trailing-extension
regex: a dot followed by one or more characters that are not a dot (and,
when `noSlash` is set as in the `[^/.]` character class of
`removeBgFromImage`, not a slash) at the end of the string. When the regex
matches — i.e. the text after the string's last dot is non-empty and free
of the excluded characters — the match (dot included) is replaced by
`repl`; otherwise the string is unchanged. -/
def replaceTrailingExt (noSlash : Bool) (s repl : String) : String :=
  match revSpanToDot s.data.reverse with
  | some (revExt, revBase) =>
    if revExt ≠ [] ∧ (noSlash = true → '/' ∉ revExt) then
      String.mk revBase.reverse ++ repl
    else s
  | none => s

/-- Output filename of `resizeImage` (`imageResizer.ts` lines 98-99):
`file.name.replace(re-trailing-ext, "_WxH.ext")` where `ext` is the output
format's extension (`jpeg` normalised to `jpg` by line 98, passed here as
the string `ext`). -/
def resizeFilename (name : String) (targetWidth targetHeight : ℕ) (ext : String) : String :=
  replaceTrailingExt false name
    ("_" ++ toString targetWidth ++ "x" ++ toString targetHeight ++ "." ++ ext)

/-- Output filename of `convertRasterFormat` (`imageConverter.ts` lines
155-156): strip the trailing extension, append `"." ++ ext`. -/
def convertRasterFilename (name ext : String) : String :=
  replaceTrailingExt false name ("." ++ ext)

/-- Output filename of `removeBgFromImage` (`ImageCropper.vue` lines
243-245): strip the trailing extension with the `[^/.]` variant of the
regex, then append `_no-bg.` and the format. -/
def removeBgFilename (name fmt : String) : String :=
  replaceTrailingExt true name "" ++ "_no-bg." ++ fmt

/-- Output filename of `convertHeicToRaster` (`imageConverter.ts` line
290): `file.name.replace(/\.heic$/i, "." + format)` — only a trailing
`.heic` (case-insensitive) is replaced; any other name, including one
ending in `.heif`, is left unchanged. -/
def heicFilename (name fmt : String) : String :=
  if strEndsWith (strToLower name) ".heic" then
    String.mk (name.data.take (name.data.length - 5)) ++ "." ++ fmt
  else name

/-! ### Surface compositing (white-fill-before-draw rule)

The canvas operations are modelled per pixel, in premultiplied RGBA: every
operation the four paths perform applies uniformly to all pixels of the
surface, so one representative pixel captures the surface semantics. -/

/-- A premultiplied RGBA pixel. -/
structure Rgba where
  r : ℚ
  g : ℚ
  b : ℚ
  a : ℚ
deriving DecidableEq, Repr

/-- Opaque white, the `#FFFFFF` fill colour. -/
def white : Rgba := ⟨1, 1, 1, 1⟩

/-- A fully transparent pixel — the content of a freshly created canvas. -/
def transparent : Rgba := ⟨0, 0, 0, 0⟩

/-- Canvas default source-over compositing on premultiplied pixels:
`out = src + dst * (1 - src.a)` componentwise. -/
def srcOver (s d : Rgba) : Rgba :=
  ⟨s.r + d.r * (1 - s.a), s.g + d.g * (1 - s.a),
   s.b + d.b * (1 - s.a), s.a + d.a * (1 - s.a)⟩

/-- `ctx.fillRect` over the whole surface with `fillStyle = '#FFFFFF'`:
every pixel becomes opaque white (white is opaque, so source-over
compositing degenerates to replacement). -/
def fillWhiteRect (d : Rgba) : Rgba := white

/-- `ctx.drawImage`: composites the source over the canvas with the
default source-over rule. -/
def drawImage (s d : Rgba) : Rgba := srcOver s d

/-- `ctx.putImageData`: writes the given pixels into the canvas
WHOLESALE, alpha channel included — it performs no compositing and
ignores the canvas's current content entirely. -/
def putImageData (s d : Rgba) : Rgba := s

/-- Assigning `canvas.width` resets the canvas: every pixel returns to
transparent. -/
def canvasWidthReset (d : Rgba) : Rgba := transparent

/-- Final pixel of the canvas `convertSvgToRaster` encodes
(`imageConverter.ts` lines 52-68): fresh canvas, white `fillRect` iff the
output format is `jpg`/`jpeg`, then `drawImage` composites the rasterized
SVG over it. -/
def svgFinalPixel (fmt : ImgFormat) (src : Rgba) : Rgba :=
  let canvas := transparent
  let canvas := if fmt = .jpg ∨ fmt = .jpeg then fillWhiteRect canvas else canvas
  drawImage src canvas

/-- Final pixel of the canvas `convertRasterFormat` encodes
(`imageConverter.ts` lines 128-145): fresh canvas, white `fillRect` iff
`jpg`/`jpeg`, then `drawImage` composites the decoded image over it. -/
def rasterFinalPixel (fmt : ImgFormat) (src : Rgba) : Rgba :=
  let canvas := transparent
  let canvas := if fmt = .jpg ∨ fmt = .jpeg then fillWhiteRect canvas else canvas
  drawImage src canvas

/-- Final pixel of the canvas `resizeImage` encodes (`imageResizer.ts`
lines 64-88), as a function of the resolved output format: fresh canvas,
white `fillRect` iff `jpg`/`jpeg`, then `drawImage` of the scaled
source. -/
def resizeFinalPixel (fmt : ImgFormat) (src : Rgba) : Rgba :=
  let canvas := transparent
  let canvas := if fmt = .jpg ∨ fmt = .jpeg then fillWhiteRect canvas else canvas
  drawImage src canvas

/-- Final pixel of the canvas `convertPdfToRaster` encodes
(`imageConverter.ts` lines 204-238): the page is rendered onto the fresh
main canvas; for `jpg`/`jpeg` its pixels are captured with `getImageData`,
a temporary canvas is filled white and then `putImageData` writes the
captured pixels into it wholesale (overwriting the white fill, alpha
included), the `canvas.width` assignment clears the main canvas, and the
temporary canvas is drawn onto it; otherwise the rendered page is encoded
directly. -/
def pdfFinalPixel (fmt : ImgFormat) (src : Rgba) : Rgba :=
  let canvas := drawImage src transparent
  if fmt = .jpg ∨ fmt = .jpeg then
    let imageData := canvas
    let tempCanvas := fillWhiteRect transparent
    let tempCanvas := putImageData imageData tempCanvas
    let canvas := canvasWidthReset canvas
    drawImage tempCanvas canvas
  else
    canvas

/-! ### Compression -/

/-- `CompressionOptions` of the compression utility module. -/
structure CompressionOptions where
  maxSizeMB : Option ℚ := none
  maxWidthOrHeight : Option ℚ := none
  useWebWorker : Option Bool := none
  quality : Option ℚ := none
  preserveExif : Option Bool := none

/-- The options object handed to the external `browser-image-compression`
collaborator, built by `compressImage` (compression module lines 33-39). -/
structure CompressCollaboratorOptions where
  maxSizeMB : ℚ
  maxWidthOrHeight : Option ℚ
  useWebWorker : Bool
  initialQuality : ℚ
  preserveExif : Bool
deriving DecidableEq, Repr

/-- `compressImage`'s construction of the collaborator options
(compression module lines 33-39): `maxSizeMB: options.maxSizeMB || 1`,
`useWebWorker: options.useWebWorker !== false`,
`initialQuality: options.quality || 0.8`,
`preserveExif: options.preserveExif !== false`. -/
def buildCompressOptions (o : CompressionOptions) : CompressCollaboratorOptions :=
  { maxSizeMB := jsOr o.maxSizeMB 1
    maxWidthOrHeight := o.maxWidthOrHeight
    useWebWorker := decide (o.useWebWorker ≠ some false)
    initialQuality := jsOr o.quality 0.8
    preserveExif := decide (o.preserveExif ≠ some false) }

/-- `CompressionResult` fields computed by `compressImage` (compression
module lines 43-53) from the input file's name and byte size and the
compressed blob's byte size. -/
structure CompressionResult where
  filename : String
  originalSize : ℕ
  compressedSize : ℕ
  compressionRatio : ℤ
deriving DecidableEq, Repr

/-- Result construction of `compressImage` (compression module lines
43-53): `compressionRatio = Math.round((1 - compressedFile.size / file.size) * 100)`,
`originalSize = file.size`, `compressedSize = compressedFile.size`,
`filename = file.name`. -/
def buildCompressionResult (name : String) (fileSize compressedFileSize : ℕ) :
    CompressionResult :=
  { filename := name
    originalSize := fileSize
    compressedSize := compressedFileSize
    compressionRatio := round ((1 - (compressedFileSize : ℚ) / (fileSize : ℚ)) * 100) }

/-- `getCompressionSettings` from `ImageConverter.vue` (lines 72-82): the
compression level 1-5 indexes a fixed `{maxSizeMB, quality}` table
(`settings[level - 1]`), out-of-range levels falling back to the Balanced
pair. The JS index is a number, so it is modelled as an integer. -/
def getCompressionSettings (level : ℤ) : ℚ × ℚ :=
  let settings : List (ℚ × ℚ) :=
    [(5, 0.95), (3, 0.85), (2, 0.75), (1, 0.65), (0.5, 0.5)]
  (if 1 ≤ level then settings[(level - 1).toNat]? else none).getD (2, 0.75)

/-! ### Encode quality plumbing -/

/-- Quality handed to `canvas.toBlob` by `convertSvgToRaster`
(`imageConverter.ts` line 90): `options.quality || 0.92`. -/
def svgEncodeQuality (o : ConversionOptions) : ℚ := jsOr o.quality 0.92

/-- Quality handed to `canvas.toBlob` by `convertRasterFormat`
(`imageConverter.ts` line 169): `options.quality || 0.92`. -/
def rasterEncodeQuality (o : ConversionOptions) : ℚ := jsOr o.quality 0.92

/-- Quality handed to `canvas.toBlob` by `convertPdfToRaster`
(`imageConverter.ts` line 260): `options.quality || 0.92`. -/
def pdfEncodeQuality (o : ConversionOptions) : ℚ := jsOr o.quality 0.92

/-- Quality handed to `heic2any` by `convertHeicToRaster`
(`imageConverter.ts` line 280): `options.quality || 0.92`. -/
def heicEncodeQuality (o : ConversionOptions) : ℚ := jsOr o.quality 0.92

/-- Quality handed to `canvas.toBlob` by `resizeImage` (`imageResizer.ts`
line 115): `options.quality || 0.92`. -/
def resizeEncodeQuality (o : ResizeOptions) : ℚ := jsOr o.quality 0.92

/-! ## Theorems -/

/-- `Math.round` is monotone. -/
lemma round_mono_of_le {a b : ℚ} (h : a ≤ b) : round a ≤ round b := by
  rw [round_eq, round_eq]
  exact Int.floor_mono (by linarith)

/-- C1: with the aspect-ratio lock on and natural height positive, the
resize geometry gives, for a lone positive width, the height
`round (width / (naturalW / naturalH))`; for a lone positive height, the
width `round (height * (naturalW / naturalH))`; with neither given, the
natural dimensions; and in particular
`resolve(1000, 500, {width: 400}) = (400, 200)` and
`resolve(1000, 500, {height: 100}) = (200, 100)`. -/
theorem C1_resize_geometry_lock (naturalW naturalH w h : ℚ)
    (hH : 0 < naturalH) (hw : 0 < w) (hh : 0 < h) :
    resolveResize naturalW naturalH { width := some w, maintainAspectRatio := some true } =
      (w, ((round (w / (naturalW / naturalH)) : ℤ) : ℚ)) ∧
    resolveResize naturalW naturalH { height := some h, maintainAspectRatio := some true } =
      (((round (h * (naturalW / naturalH)) : ℤ) : ℚ), h) ∧
    resolveResize naturalW naturalH { maintainAspectRatio := some true } =
      (naturalW, naturalH) ∧
    resolveResize 1000 500 { width := some 400 } = (400, 200) ∧
    resolveResize 1000 500 { height := some 100 } = (200, 100) := by
  refine ⟨?_, ?_, ?_, ?_, ?_⟩
  · simp [resolveResize, jsOr, jsTruthy, hw.ne']
  · simp [resolveResize, jsOr, jsTruthy, hh.ne']
  · simp [resolveResize, jsOr, jsTruthy]
  · norm_num [resolveResize, jsOr, jsTruthy, round_eq] <;> decide
  · norm_num [resolveResize, jsOr, jsTruthy, round_eq] <;> decide

theorem C1_resize_geometry_lock_witness :
    resolveResize 1000 500 { width := some 400 } = (400, 200) :=
  (C1_resize_geometry_lock 1000 500 400 100 (by norm_num) (by norm_num) (by norm_num)).2.2.2.1

/-- C3 (failing input): quality `2` lies outside `[0, 1]`, yet
`convertRasterFormat`, `resizeImage` and `compressImage` all hand it to
their encode primitive unchanged — `options.quality || default` replaces
only `undefined`/`0`, it neither rejects nor clamps. -/
theorem C3_quality_unclamped :
    rasterEncodeQuality { format := .png, quality := some 2 } = 2 ∧
    svgEncodeQuality { format := .png, quality := some 2 } = 2 ∧
    pdfEncodeQuality { format := .png, quality := some 2 } = 2 ∧
    heicEncodeQuality { format := .png, quality := some 2 } = 2 ∧
    resizeEncodeQuality { quality := some 2 } = 2 ∧
    (buildCompressOptions { quality := some 2 }).initialQuality = 2 ∧
    ¬ ((2 : ℚ) ≤ 1) := by
  norm_num [rasterEncodeQuality, svgEncodeQuality, pdfEncodeQuality, heicEncodeQuality,
    resizeEncodeQuality, buildCompressOptions, jsOr]

/-- C7 (failing input): the white-fill rule is NOT uniform. On the SVG,
raster and resize paths a transparent source pixel encoded as `jpg` ends
up on opaque white, but on the PDF path the white fill of the temporary
canvas is overwritten wholesale by `putImageData` (and the main canvas is
cleared by the `canvas.width` assignment), so the same transparent pixel
reaches the `jpg` encoder still transparent — no white ever lies beneath
the rendered page. For `png` the PDF path encodes the rendered page
directly, as the claim says. -/
theorem C7_pdf_white_fill_ineffective :
    svgFinalPixel .jpg transparent = white ∧
    rasterFinalPixel .jpg transparent = white ∧
    resizeFinalPixel .jpg transparent = white ∧
    pdfFinalPixel .jpg transparent = transparent ∧
    transparent ≠ white ∧
    pdfFinalPixel .png transparent = transparent := by
  refine ⟨?_, ?_, ?_, ?_, ?_, ?_⟩ <;>
    norm_num [svgFinalPixel, rasterFinalPixel, resizeFinalPixel, pdfFinalPixel,
      fillWhiteRect, drawImage, putImageData, canvasWidthReset, srcOver,
      white, transparent, Rgba.mk.injEq]

/-- C8: the compression-level table is a monotone ladder — a lower level
never has a smaller `maxSizeMB` or `quality` than a higher one; in
particular level 1 dominates level 5 on both components. -/
theorem C8_compression_ladder (a b : ℤ) (h1 : 1 ≤ a) (h2 : a < b) (h3 : b ≤ 5) :
    (getCompressionSettings b).1 ≤ (getCompressionSettings a).1 ∧
    (getCompressionSettings b).2 ≤ (getCompressionSettings a).2 := by
  have ha : a ≤ 4 := by omega
  have hb : 2 ≤ b := by omega
  interval_cases a <;> interval_cases b <;>
    norm_num [getCompressionSettings, Int.toNat_ofNat, (by decide : Int.toNat 2 = 2),
      (by decide : Int.toNat 3 = 3), (by decide : Int.toNat 4 = 4)]

theorem C8_compression_ladder_witness :
    (getCompressionSettings 5).1 ≤ (getCompressionSettings 1).1 ∧
    (getCompressionSettings 5).2 ≤ (getCompressionSettings 1).2 :=
  C8_compression_ladder 1 5 (by norm_num) (by norm_num) (by norm_num)

/-- C9: a successful compression result reports
`compressionRatio = round((1 - newSize/originalSize) * 100)` and carries
the input file's byte size and the compressed blob's byte size
unchanged. -/
theorem C9_compress_result_fields (name : String) (originalSize newSize : ℕ)
    (h : 0 < originalSize) :
    (buildCompressionResult name originalSize newSize).compressionRatio =
      round ((1 - (newSize : ℚ) / (originalSize : ℚ)) * 100) ∧
    (buildCompressionResult name originalSize newSize).originalSize = originalSize ∧
    (buildCompressionResult name originalSize newSize).compressedSize = newSize :=
  ⟨rfl, rfl, rfl⟩

theorem C9_compress_result_fields_witness :
    (buildCompressionResult "a.png" 1000 250).compressionRatio = 75 ∧
    (buildCompressionResult "a.png" 1000 250).originalSize = 1000 ∧
    (buildCompressionResult "a.png" 1000 250).compressedSize = 250 := by
  obtain ⟨h1, h2, h3⟩ := C9_compress_result_fields "a.png" 1000 250 (by norm_num)
  exact ⟨h1.trans (by norm_num [round_eq]), h2, h3⟩

/-- C10: an explicit quality of `0` is falsy in `options.quality || d`, so
every operation behaves exactly as if quality were omitted — convert and
resize encode at the default `0.92`, compress hands `initialQuality 0.8`
to its collaborator. -/
theorem C10_quality_zero_default (co : ConversionOptions) (ro : ResizeOptions)
    (po : CompressionOptions) :
    svgEncodeQuality { co with quality := some 0 } =
      svgEncodeQuality { co with quality := none } ∧
    rasterEncodeQuality { co with quality := some 0 } =
      rasterEncodeQuality { co with quality := none } ∧
    pdfEncodeQuality { co with quality := some 0 } =
      pdfEncodeQuality { co with quality := none } ∧
    heicEncodeQuality { co with quality := some 0 } =
      heicEncodeQuality { co with quality := none } ∧
    svgEncodeQuality { co with quality := none } = 0.92 ∧
    rasterEncodeQuality { co with quality := none } = 0.92 ∧
    pdfEncodeQuality { co with quality := none } = 0.92 ∧
    heicEncodeQuality { co with quality := none } = 0.92 ∧
    resizeEncodeQuality { ro with quality := some 0 } =
      resizeEncodeQuality { ro with quality := none } ∧
    resizeEncodeQuality { ro with quality := none } = 0.92 ∧
    buildCompressOptions { po with quality := some 0 } =
      buildCompressOptions { po with quality := none } ∧
    (buildCompressOptions { po with quality := none }).initialQuality = 0.8 := by
  simp [svgEncodeQuality, rasterEncodeQuality, pdfEncodeQuality, heicEncodeQuality,
    resizeEncodeQuality, buildCompressOptions, jsOr]

/-- C2 (counterexample): with both dimensions present and the lock set,
`convertRasterFormat` does NOT apply fit-within — at natural 1000×500 with
requested 400×400 it returns 400×400 verbatim, while the fit-within policy
of the claim yields height `round(500 * min(400/1000, 400/500)) = 200`. -/
theorem C2_counterexample :
    resolveConvertRaster 1000 500
      { format := .jpg, width := some 400, height := some 400,
        maintainAspectRatio := some true } = (400, 400) ∧
    ((round ((500 : ℚ) * min ((400 : ℚ) / 1000) ((400 : ℚ) / 500)) : ℤ) : ℚ) = 200 ∧
    (400 : ℚ) ≠ 200 := by
  refine ⟨?_, ?_, by norm_num⟩
  · norm_num [resolveConvertRaster, jsOr, jsTruthy]
  · norm_num [round_eq]

/-- C2 (amended): with both positive integer dimensions present and the
lock on, the RESIZE path applies fit-within — target =
`round(natural * min(width/naturalW, height/naturalH))` on both axes, and
neither output dimension exceeds the requested one — while the raster
CONVERT path uses the requested pair verbatim (no fit-within). -/
theorem C2_amended_fit_within (naturalW naturalH : ℚ) (w h : ℕ)
    (hW : 0 < naturalW) (hH : 0 < naturalH) (hw : 0 < w) (hh : 0 < h) :
    resolveResize naturalW naturalH
      { width := some (w : ℚ), height := some (h : ℚ),
        maintainAspectRatio := some true } =
      (((round (naturalW * min ((w : ℚ) / naturalW) ((h : ℚ) / naturalH)) : ℤ) : ℚ),
       ((round (naturalH * min ((w : ℚ) / naturalW) ((h : ℚ) / naturalH)) : ℤ) : ℚ)) ∧
    ((round (naturalW * min ((w : ℚ) / naturalW) ((h : ℚ) / naturalH)) : ℤ) : ℚ) ≤ (w : ℚ) ∧
    ((round (naturalH * min ((w : ℚ) / naturalW) ((h : ℚ) / naturalH)) : ℤ) : ℚ) ≤ (h : ℚ) ∧
    resolveConvertRaster naturalW naturalH
      { format := .png, width := some (w : ℚ), height := some (h : ℚ),
        maintainAspectRatio := some true } = ((w : ℚ), (h : ℚ)) := by
  have hw' : ((w : ℚ)) ≠ 0 := by positivity
  have hh' : ((h : ℚ)) ≠ 0 := by positivity
  refine ⟨?_, ?_, ?_, ?_⟩
  · simp [resolveResize, jsOr, jsTruthy, hw', hh']
  · have hle : naturalW * min ((w : ℚ) / naturalW) ((h : ℚ) / naturalH) ≤ (w : ℚ) := by
      calc naturalW * min ((w : ℚ) / naturalW) ((h : ℚ) / naturalH)
          ≤ naturalW * ((w : ℚ) / naturalW) :=
            mul_le_mul_of_nonneg_left (min_le_left _ _) hW.le
        _ = (w : ℚ) := by field_simp
    have hr := round_mono_of_le hle
    rw [round_natCast] at hr
    exact_mod_cast hr
  · have hle : naturalH * min ((w : ℚ) / naturalW) ((h : ℚ) / naturalH) ≤ (h : ℚ) := by
      calc naturalH * min ((w : ℚ) / naturalW) ((h : ℚ) / naturalH)
          ≤ naturalH * ((h : ℚ) / naturalH) :=
            mul_le_mul_of_nonneg_left (min_le_right _ _) hH.le
        _ = (h : ℚ) := by field_simp
    have hr := round_mono_of_le hle
    rw [round_natCast] at hr
    exact_mod_cast hr
  · simp [resolveConvertRaster, jsOr, jsTruthy, hw', hh']

theorem C2_amended_fit_within_witness :
    resolveResize 1000 500
      { width := some ((400 : ℕ) : ℚ), height := some ((400 : ℕ) : ℚ),
        maintainAspectRatio := some true } =
      (((round ((1000 : ℚ) * min (((400 : ℕ) : ℚ) / 1000) (((400 : ℕ) : ℚ) / 500)) : ℤ) : ℚ),
       ((round ((500 : ℚ) * min (((400 : ℕ) : ℚ) / 1000) (((400 : ℕ) : ℚ) / 500)) : ℤ) : ℚ)) :=
  (C2_amended_fit_within 1000 500 400 400 (by norm_num) (by norm_num)
    (by norm_num) (by norm_num)).1

/-- C4: `convertImage` classifies with first match winning, in the order
PDF (filename `.pdf` or PDF media type), HEIC/HEIF, SVG, then generic
`image/` raster; in particular `x.pdf` declared as `image/png` is
dispatched to the PDF decoder. -/
theorem C4_detection_order (name declaredType : String) :
    ((strEndsWith (strToLower name) ".pdf" ||
      strEq (strToLower declaredType) "application/pdf") = true →
      convertImageRoute name declaredType = .ok .pdfRoute) ∧
    ((strEndsWith (strToLower name) ".pdf" ||
      strEq (strToLower declaredType) "application/pdf") = false →
     (strEndsWith (strToLower name) ".heic" || strEndsWith (strToLower name) ".heif" ||
      strEq (strToLower declaredType) "image/heic" ||
      strEq (strToLower declaredType) "image/heif") = true →
      convertImageRoute name declaredType = .ok .heicRoute) ∧
    ((strEndsWith (strToLower name) ".pdf" ||
      strEq (strToLower declaredType) "application/pdf") = false →
     (strEndsWith (strToLower name) ".heic" || strEndsWith (strToLower name) ".heif" ||
      strEq (strToLower declaredType) "image/heic" ||
      strEq (strToLower declaredType) "image/heif") = false →
     (strEq (strToLower declaredType) "image/svg+xml" ||
      strEndsWith (strToLower name) ".svg") = true →
      convertImageRoute name declaredType = .ok .svgRoute) ∧
    ((strEndsWith (strToLower name) ".pdf" ||
      strEq (strToLower declaredType) "application/pdf") = false →
     (strEndsWith (strToLower name) ".heic" || strEndsWith (strToLower name) ".heif" ||
      strEq (strToLower declaredType) "image/heic" ||
      strEq (strToLower declaredType) "image/heif") = false →
     (strEq (strToLower declaredType) "image/svg+xml" ||
      strEndsWith (strToLower name) ".svg") = false →
      strStartsWith (strToLower declaredType) "image/" = true →
      convertImageRoute name declaredType = .ok .rasterRoute) ∧
    convertImageRoute "x.pdf" "image/png" = .ok .pdfRoute := by
  refine ⟨fun h1 => ?_, fun h1 h2 => ?_, fun h1 h2 h3 => ?_, fun h1 h2 h3 h4 => ?_, rfl⟩ <;>
    simp [convertImageRoute, *]

theorem C4_detection_order_witness :
    convertImageRoute "photo.HEIC" "" = .ok .heicRoute :=
  (C4_detection_order "photo.HEIC" "").2.1 (by decide) (by decide)

/-- C5: a file matching none of the PDF/HEIC/SVG rules, whose declared
media type does not start with `image/`, makes `convertImage` fail with the
unsupported-format error carrying the observed (lower-cased, non-empty)
declared type, instead of returning a route. -/
theorem C5_unsupported_error (name declaredType : String)
    (h1 : (strEndsWith (strToLower name) ".pdf" ||
      strEq (strToLower declaredType) "application/pdf") = false)
    (h2 : (strEndsWith (strToLower name) ".heic" || strEndsWith (strToLower name) ".heif" ||
      strEq (strToLower declaredType) "image/heic" ||
      strEq (strToLower declaredType) "image/heif") = false)
    (h3 : (strEq (strToLower declaredType) "image/svg+xml" ||
      strEndsWith (strToLower name) ".svg") = false)
    (h4 : strStartsWith (strToLower declaredType) "image/" = false)
    (h5 : strEq (strToLower declaredType) "" = false) :
    convertImageRoute name declaredType =
      .error ("Unsupported file type: " ++ strToLower declaredType) := by
  simp [convertImageRoute, h1, h2, h3, h4, h5]

theorem C5_unsupported_error_witness :
    convertImageRoute "notes.txt" "text/plain" =
      .error ("Unsupported file type: " ++ strToLower "text/plain") :=
  C5_unsupported_error "notes.txt" "text/plain" (by decide) (by decide) (by decide)
    (by decide) (by decide)

/-- Walking a reversed character list that starts with a dot-free run `l`
followed by `'.'` splits exactly at that dot. -/
lemma revSpanToDot_append (l r : List Char) (hl : '.' ∉ l) :
    revSpanToDot (l ++ '.' :: r) = some (l, r) := by
  induction l with
  | nil => simp [revSpanToDot]
  | cons c cs ih =>
    have hc : c ≠ '.' := fun hc => hl (hc ▸ List.mem_cons_self c cs)
    have hcs : '.' ∉ cs := fun hm => hl (List.mem_cons_of_mem c hm)
    simp [revSpanToDot, hc, ih hcs]

/-- On a name of the shape `base ++ "." ++ ext` with a non-empty extension
free of dots and slashes, the trailing-extension replacement yields
`base ++ repl`. -/
lemma replaceTrailingExt_append (noSlash : Bool) (base ext repl : String)
    (h1 : ext.data ≠ []) (h2 : '.' ∉ ext.data) (h3 : '/' ∉ ext.data) :
    replaceTrailingExt noSlash (base ++ "." ++ ext) repl = base ++ repl := by
  have hdata : (base ++ "." ++ ext).data = base.data ++ '.' :: ext.data := by
    simp [String.data_append]
  have hrev : (base.data ++ '.' :: ext.data).reverse =
      ext.data.reverse ++ '.' :: base.data.reverse := by
    simp
  rw [replaceTrailingExt, hdata, hrev,
    revSpanToDot_append _ _ (by simpa using h2)]
  have g1 : ext.data.reverse ≠ [] := by simpa using h1
  have g2 : '/' ∉ ext.data.reverse := by simpa using h3
  simp [g1, g2, List.reverse_reverse]

/-- C6 (counterexample): a `.heif` input is dispatched to the HEIC
converter, but `convertHeicToRaster` only rewrites a trailing `.heic`, so
`photo.heif` converted to `png` keeps the filename `photo.heif` instead of
becoming `photo.png`. -/
theorem C6_counterexample :
    convertImageRoute "photo.heif" "image/heif" = .ok .heicRoute ∧
    heicFilename "photo.heif" "png" = "photo.heif" ∧
    "photo.heif" ≠ "photo.png" :=
  ⟨rfl, by decide, by decide⟩

/-- C6 (amended): for a name `base.ext` (extension non-empty, dot- and
slash-free), resize yields `base_{W}x{H}.fmt`, raster convert yields
`base.fmt`, background-removal yields `base_no-bg.fmt`, and a trailing
`.heic` is swapped to the target extension — but a `.heif` name is kept
unchanged by the HEIC path; the claim's concrete examples hold. -/
theorem C6_amended_filenames (base ext ofmt : String) (w h : ℕ)
    (h1 : ext.data ≠ []) (h2 : '.' ∉ ext.data) (h3 : '/' ∉ ext.data) :
    resizeFilename (base ++ "." ++ ext) w h ofmt =
      base ++ ("_" ++ toString w ++ "x" ++ toString h ++ "." ++ ofmt) ∧
    convertRasterFilename (base ++ "." ++ ext) ofmt = base ++ ("." ++ ofmt) ∧
    removeBgFilename (base ++ "." ++ ext) ofmt = base ++ "_no-bg." ++ ofmt ∧
    heicFilename "photo.heic" "jpg" = "photo.jpg" ∧
    heicFilename "photo.heif" "jpg" = "photo.heif" ∧
    resizeFilename "photo.png" 400 300 "png" = "photo_400x300.png" ∧
    removeBgFilename "photo.png" "jpg" = "photo_no-bg.jpg" := by
  have hbe : base ++ "" = base := String.ext (by simp [String.data_append])
  refine ⟨?_, ?_, ?_, by decide, by decide, by decide, by decide⟩
  · simpa [resizeFilename] using
      replaceTrailingExt_append false base ext
        ("_" ++ toString w ++ "x" ++ toString h ++ "." ++ ofmt) h1 h2 h3
  · simpa [convertRasterFilename] using
      replaceTrailingExt_append false base ext ("." ++ ofmt) h1 h2 h3
  · rw [removeBgFilename, replaceTrailingExt_append true base ext "" h1 h2 h3, hbe]

theorem C6_amended_filenames_witness :
    resizeFilename ("img" ++ "." ++ "png") 10 20 "jpg" =
      "img" ++ ("_" ++ toString 10 ++ "x" ++ toString 20 ++ "." ++ "jpg") :=
  (C6_amended_filenames "img" "png" "jpg" 10 20 (by decide) (by decide) (by decide)).1

end PicFlow
